import Mathlib

/-!
Shallow embedding of `src/backend/main.py` (orb-of-pondering): a single-endpoint
FastAPI service.  Module-level code builds a `GeminiModel` configuration from the
environment; the `POST /` handler `seek_cosmic_wisdom` validates the body into an
`Inquery`, constructs a fresh `Agent` with a fixed system prompt, invokes it once
with the question, and returns an `Insight` whose `wisdom` is
`resp.message['content'][0]['text']`.

The external model capability (`strands` `Agent.__call__` dispatching to the
Gemini backend) is a parameter of the embedding; its state is threaded
explicitly so that call counts and the conversations it is shown are provable.
-/

/-- A JSON value as it arrives in a request body (the shapes relevant to the
`question` field: strings versus every non-string JSON shape). -/
inductive JValue where
  | str (s : String)
  | num (n : Int)
  | boolean (b : Bool)
  | null
  | arr
  | obj
deriving Repr, DecidableEq

/-- An inbound JSON object body: an association list of fields. -/
def Payload : Type := List (String × JValue)

/-- Environment variables, as read by `os.getenv`. -/
def Env : Type := List (String × String)

/-- `os.getenv`: `none` when the variable is absent. -/
def getenv (env : Env) (k : String) : Option String := env.lookup k

/-- `client_args={"api_key": os.getenv("GEMINI_API_KEY")}`: the credential slot
holds whatever `os.getenv` returned, possibly `None`. -/
structure ClientArgs where
  api_key : Option String
deriving Repr, DecidableEq

/-- The `params` dict of the `GeminiModel` call (floats as exact rationals). -/
structure ModelParams where
  temperature : Rat
  max_output_tokens : Nat
  top_p : Rat
  top_k : Nat
deriving Repr, DecidableEq

/-- The module-level `GeminiModel(...)` configuration value. -/
structure GeminiModel where
  client_args : ClientArgs
  model_id : String
  params : ModelParams
deriving Repr, DecidableEq

/-- The module-level statement `model = GeminiModel(client_args=..., model_id=...,
params=...)` of `main.py`: a pure construction storing the (possibly absent)
credential; the source performs no check on it. -/
def startupModel (env : Env) : GeminiModel :=
  { client_args := { api_key := getenv env "GEMINI_API_KEY" }
    model_id := "gemini-3-flash-preview"
    params :=
      { temperature := 7 / 10
        max_output_tokens := 2048
        top_p := 9 / 10
        top_k := 40 } }

/-- The startup-time configuration failure the specification describes.  The
source never raises it: no constructor of this type is produced anywhere. -/
inductive ConfigurationError where
  | missingCredential (varName : String)
deriving Repr, DecidableEq

/-- Embedding of module initialization (`load_dotenv(); model = GeminiModel(...)`).
The source contains no credential check and no failure path, so the embedding
always returns `.ok`; the `Except` shape records that no `ConfigurationError`
is ever raised at startup. -/
def moduleInit (env : Env) : Except ConfigurationError GeminiModel :=
  .ok (startupModel env)

/-- `class Inquery(BaseModel): question: str` — the validated request body. -/
structure Inquery where
  question : String
deriving Repr, DecidableEq

/-- `class Insight(BaseModel): question: str; wisdom: str` — the response body. -/
structure Insight where
  question : String
  wisdom : String
deriving Repr, DecidableEq

/-- A pydantic validation failure, carrying the offending field name. -/
inductive ValidationError where
  | missing (fieldName : String)
  | wrongType (fieldName : String)
deriving Repr, DecidableEq

/-- The field an error names. -/
def ValidationError.fieldName : ValidationError → String
  | .missing f => f
  | .wrongType f => f

/-- Pydantic validation of an `Inquery` from a JSON body: the `question` field
must be present and be a JSON string (pydantic v2 does not coerce other JSON
shapes to `str`); any string, including a blank one, is accepted — the model
declares `question: str` with no content constraint. -/
def Inquery.validate (p : Payload) : Except ValidationError Inquery :=
  match p.lookup "question" with
  | none => .error (.missing "question")
  | some (JValue.str s) => .ok { question := s }
  | some _ => .error (.wrongType "question")

/-- One content segment of a model reply message: a dict that either carries a
`text` key (a text-bearing segment) or is some other kind of block. -/
inductive Segment where
  | text (payload : String)
  | nonText (kind : String)
deriving Repr, DecidableEq

/-- `seg['text']` viewed totally: the payload when the segment is text-bearing. -/
def Segment.textPayload : Segment → Option String
  | .text s => some s
  | .nonText _ => none

/-- A message of the conversation: `resp.message` is a dict with a role and a
`content` list of segments; user turns have the same shape. -/
structure Message where
  role : String
  content : List Segment
deriving Repr, DecidableEq

/-- The user turn the agent call appends for a question. -/
def userMsg (q : String) : Message :=
  { role := "user", content := [Segment.text q] }

/-- The unhandled Python exceptions the expression
`resp.message['content'][0]['text']` can raise: `IndexError` when the content
list is empty, `KeyError` when segment 0 bears no `text` key. -/
inductive Fault where
  | indexError
  | keyError
deriving Repr, DecidableEq

/-- Faithful embedding of `resp.message['content'][0]['text']`: an unchecked
index lookup at position 0 followed by an unchecked `text` key lookup. -/
def extractWisdom (content : List Segment) : Except Fault String :=
  match content.get? 0 with
  | none => .error .indexError
  | some seg =>
    match seg.textPayload with
    | some t => .ok t
    | none => .error .keyError

/-- The external model capability with explicit state `σ`: given its current
state, the model configuration, the system prompt and the conversation so far,
it produces the assistant reply message and a next state. -/
def GenerateS (σ : Type) : Type :=
  σ → GeminiModel → String → List Message → Message × σ

/-- A stateless (pure) model capability. -/
def Generate : Type := GeminiModel → String → List Message → Message

/-- Lift a pure capability into the state-threaded form. -/
def liftGen (g : Generate) : GenerateS Unit :=
  fun u m sp h => (g m sp h, u)

/-- Instrumentation: count the outbound calls made to the capability. -/
def countingGen (g : Generate) : GenerateS Nat :=
  fun n m sp h => (g m sp h, n + 1)

/-- Instrumentation: record every conversation shown to the capability. -/
def recordingGen (g : Generate) : GenerateS (List (List Message)) :=
  fun log m sp h => (g m sp h, log ++ [h])

/-- The `Agent(...)` object: model configuration, system prompt, and the
conversation history it has accumulated (empty at construction). -/
structure Agent where
  model : GeminiModel
  system_prompt : String
  messages : List Message
deriving Repr, DecidableEq

/-- `agent(question)`: append the user turn to the history, invoke the model
capability on the whole conversation, and append its reply to the history. -/
def Agent.callS {σ : Type} (g : GenerateS σ) (s : σ) (a : Agent) (q : String) :
    Message × Agent × σ :=
  let hist := a.messages ++ [userMsg q]
  let out := g s a.model a.system_prompt hist
  (out.1, { a with messages := hist ++ [out.1] }, out.2)

/-- The fixed system prompt of `seek_cosmic_wisdom`. -/
def orbSystemPrompt : String :=
  "You are a mystical orb of pondering that people come to for wisdom. You will provide advice or insight that is deep and relfective but must be extremely concise. Sort of like a prophetic magic 8-ball or a chinese fortune cookie. a wise guru giving spiritual guidance"

/-- The handler body of `seek_cosmic_wisdom` (state-threaded capability): build
a fresh `Agent` with empty history, call it once with the question, and build
`Insight(question=r.question, wisdom=resp.message['content'][0]['text'])`.
The header logging (`print(context.headers)`) has no effect on the result and
is not modelled. -/
def seek_cosmic_wisdomS {σ : Type} (g : GenerateS σ) (s : σ) (m : GeminiModel)
    (r : Inquery) : Except Fault Insight × σ :=
  let agent : Agent := { model := m, system_prompt := orbSystemPrompt, messages := [] }
  let res := Agent.callS g s agent r.question
  match extractWisdom res.1.content with
  | .ok w => (.ok { question := r.question, wisdom := w }, res.2.2)
  | .error f => (.error f, res.2.2)

/-- `seek_cosmic_wisdom` with a pure capability. -/
def seek_cosmic_wisdom (g : Generate) (m : GeminiModel) (r : Inquery) :
    Except Fault Insight :=
  (seek_cosmic_wisdomS (liftGen g) () m r).1

/-- A request-level failure of the endpoint: either the pydantic validation
error (FastAPI's 422 client error) or an unhandled exception escaping the
handler (surfaced by the framework as a generic 500). -/
inductive AppError where
  | validation (e : ValidationError)
  | fault (f : Fault)
deriving Repr, DecidableEq

/-- The full `POST /` pipeline on a raw JSON body: FastAPI validates the body
into an `Inquery` and only then runs the handler. -/
def post_rootS {σ : Type} (g : GenerateS σ) (s : σ) (m : GeminiModel)
    (p : Payload) : Except AppError Insight × σ :=
  match Inquery.validate p with
  | .error e => (.error (.validation e), s)
  | .ok r =>
    match seek_cosmic_wisdomS g s m r with
    | (.ok i, s2) => (.ok i, s2)
    | (.error f, s2) => (.error (.fault f), s2)

/-- The `POST /` pipeline with a pure capability. -/
def post_root (g : Generate) (m : GeminiModel) (p : Payload) :
    Except AppError Insight :=
  (post_rootS (liftGen g) () m p).1

/-- The typed upstream failure the specification describes for the extraction
step. -/
inductive SpecError where
  | upstream (msg : String)
deriving Repr, DecidableEq

/-- Modelled from the spec (not present in the source): extract the first
text-bearing content segment of a reply, failing with
`UpstreamError("empty reply")` when no segment bears text.  Stated here only to
compare with the source's `extractWisdom`. -/
def spec_extractWisdom (content : List Segment) : Except SpecError String :=
  match content.findSome? Segment.textPayload with
  | some t => .ok t
  | none => .error (.upstream "empty reply")

/-! ## Helper lemmas -/

/-- The state after the handler runs is the state after exactly the one
capability call it makes, on the single-turn conversation. -/
theorem seek_cosmic_wisdomS_snd {σ : Type} (g : GenerateS σ) (s : σ)
    (m : GeminiModel) (r : Inquery) :
    (seek_cosmic_wisdomS g s m r).2
      = (g s m orbSystemPrompt [userMsg r.question]).2 := by
  unfold seek_cosmic_wisdomS Agent.callS
  dsimp only
  split <;> rfl

/-- The handler result is determined by the extraction of segment 0 of the
reply produced for the single-turn conversation. -/
theorem seek_cosmic_wisdomS_fst {σ : Type} (g : GenerateS σ) (s : σ)
    (m : GeminiModel) (r : Inquery) :
    (seek_cosmic_wisdomS g s m r).1
      = match extractWisdom (g s m orbSystemPrompt [userMsg r.question]).1.content with
        | .ok w => .ok { question := r.question, wisdom := w }
        | .error f => .error f := by
  unfold seek_cosmic_wisdomS Agent.callS
  dsimp only
  split <;> simp_all

/-- When validation succeeds, the pipeline state is the handler state. -/
theorem post_rootS_snd_ok {σ : Type} (g : GenerateS σ) (s : σ) (m : GeminiModel)
    (p : Payload) (r : Inquery) (h : Inquery.validate p = .ok r) :
    (post_rootS g s m p).2 = (seek_cosmic_wisdomS g s m r).2 := by
  unfold post_rootS
  rw [h]
  rcases hsk : seek_cosmic_wisdomS g s m r with ⟨res, s2⟩
  cases res <;> simp [hsk]

/-! ## Claim theorems -/

/-- C1: each request is served by its own fresh persona session.  Running two
requests in sequence over a conversation-recording capability, the model is
shown exactly one single-turn conversation per request — the second request's
conversation contains only its own question, never the first request's question
or answer — and each request's result equals the result of running it in
isolation. -/
theorem session_isolation_fresh_agent (g : Generate) (m : GeminiModel)
    (r1 r2 : Inquery) :
    (seek_cosmic_wisdomS (recordingGen g)
        ((seek_cosmic_wisdomS (recordingGen g) [] m r1).2) m r2).2
      = [[userMsg r1.question], [userMsg r2.question]]
    ∧ (seek_cosmic_wisdomS (recordingGen g)
        ((seek_cosmic_wisdomS (recordingGen g) [] m r1).2) m r2).1
      = seek_cosmic_wisdom g m r2
    ∧ (seek_cosmic_wisdomS (recordingGen g) [] m r1).1
      = seek_cosmic_wisdom g m r1 := by
  refine ⟨?_, ?_, ?_⟩
  · rw [seek_cosmic_wisdomS_snd, seek_cosmic_wisdomS_snd]
    simp [recordingGen]
  · rw [seek_cosmic_wisdomS_fst]
    unfold seek_cosmic_wisdom
    rw [seek_cosmic_wisdomS_fst]
    simp [recordingGen, liftGen]
  · rw [seek_cosmic_wisdomS_fst]
    unfold seek_cosmic_wisdom
    rw [seek_cosmic_wisdomS_fst]
    simp [recordingGen, liftGen]

/-- C2 counterexample: for a capability whose reply has zero content segments,
the handler fails with the unhandled `IndexError` raised by
`resp.message['content'][0]`, not with a typed `UpstreamError("empty reply")`
(the spec-modelled extraction, shown alongside, is what would produce that). -/
theorem emptyReply_raises_indexError :
    seek_cosmic_wisdom
        (fun _ _ _ => { role := "assistant", content := [] })
        (startupModel []) { question := "Will I be too cold without a jacket?" }
      = .error Fault.indexError
    ∧ spec_extractWisdom [] = .error (SpecError.upstream "empty reply") := by
  exact ⟨rfl, rfl⟩

/-- C2 (amended): for every validated inquiry, if the capability's reply for
that question contains zero content segments, the handler raises an unhandled
`IndexError` — surfaced by the framework as a generic server error — and no
typed `UpstreamError` exists in the code. -/
theorem emptyReply_fault_unhandled (g : Generate) (m : GeminiModel) (r : Inquery)
    (h : (g m orbSystemPrompt [userMsg r.question]).content = []) :
    seek_cosmic_wisdom g m r = .error Fault.indexError := by
  unfold seek_cosmic_wisdom
  rw [seek_cosmic_wisdomS_fst]
  simp [liftGen, h, extractWisdom]

/-- C2 witness for the amended theorem at a concrete empty-reply stub. -/
theorem emptyReply_fault_unhandled_witness :
    seek_cosmic_wisdom
        (fun _ _ _ => { role := "assistant", content := [] })
        (startupModel []) { question := "?" }
      = .error Fault.indexError :=
  emptyReply_fault_unhandled _ _ _ rfl

/-- C3 counterexample: the blank string `" "` (no non-whitespace character) is
accepted by the validator, and the orchestrator IS invoked for it — the
counting pipeline records one capability call. -/
theorem blank_question_reaches_orchestrator :
    Inquery.validate [("question", JValue.str " ")] = .ok { question := " " }
    ∧ (post_rootS
        (countingGen (fun _ _ _ => { role := "assistant", content := [Segment.text "w"] }))
        0 (startupModel []) [("question", JValue.str " ")]).2 = 1 := by
  exact ⟨rfl, rfl⟩

/-- C3 (amended): for every payload whose `question` field is missing or not a
string, the validator rejects with a `ValidationError` naming `question` and
the orchestrator / model capability is never invoked; a blank string, however,
is accepted and does reach the orchestrator. -/
theorem invalid_question_rejected_before_model (p : Payload) (g : Generate)
    (m : GeminiModel)
    (h : ∀ s, p.lookup "question" ≠ some (JValue.str s)) :
    (∃ e, Inquery.validate p = .error e ∧ e.fieldName = "question")
    ∧ (post_rootS (countingGen g) 0 m p).2 = 0 := by
  have hv : ∃ e, Inquery.validate p = .error e ∧ e.fieldName = "question" := by
    unfold Inquery.validate
    cases hl : p.lookup "question" with
    | none => exact ⟨.missing "question", rfl, rfl⟩
    | some v =>
      cases v with
      | str s => exact absurd hl (h s)
      | num n => exact ⟨.wrongType "question", rfl, rfl⟩
      | boolean b => exact ⟨.wrongType "question", rfl, rfl⟩
      | null => exact ⟨.wrongType "question", rfl, rfl⟩
      | arr => exact ⟨.wrongType "question", rfl, rfl⟩
      | obj => exact ⟨.wrongType "question", rfl, rfl⟩
  obtain ⟨e, he, hf⟩ := hv
  refine ⟨⟨e, he, hf⟩, ?_⟩
  simp [post_rootS, he]

/-- C3 witness for the amended theorem at the missing-field payload `{}`. -/
theorem invalid_question_rejected_before_model_witness :
    (∃ e, Inquery.validate [] = .error e ∧ e.fieldName = "question")
    ∧ (post_rootS
        (countingGen (fun _ _ _ => { role := "assistant", content := [Segment.text "w"] }))
        0 (startupModel []) []).2 = 0 :=
  invalid_question_rejected_before_model [] _ _ (fun s => by simp [List.lookup])

/-- C4: whenever the reply produced for a question has a text segment with
payload `t` as its first content segment, the handler returns
`Insight{question, wisdom := t}`. -/
theorem first_segment_text_yields_insight (g : Generate) (m : GeminiModel)
    (q t : String)
    (h : (g m orbSystemPrompt [userMsg q]).content.head? = some (Segment.text t)) :
    seek_cosmic_wisdom g m { question := q }
      = .ok { question := q, wisdom := t } := by
  unfold seek_cosmic_wisdom
  rw [seek_cosmic_wisdomS_fst]
  cases hc : (g m orbSystemPrompt [userMsg q]).content with
  | nil => rw [hc] at h; simp at h
  | cons a l =>
    rw [hc] at h
    simp at h
    simp [liftGen, hc, extractWisdom, h, Segment.textPayload]

/-- C4 witness: the claim's concrete stub reply and question. -/
theorem first_segment_text_yields_insight_witness :
    seek_cosmic_wisdom
        (fun _ _ _ =>
          { role := "assistant"
            content := [Segment.text "The wind honors only the prepared."] })
        (startupModel []) { question := "Will I be too cold without a jacket?" }
      = .ok { question := "Will I be too cold without a jacket?",
              wisdom := "The wind honors only the prepared." } :=
  first_segment_text_yields_insight _ _ _ _ rfl

/-- C5 counterexample: a reply whose first text-bearing segment sits at
position 1 (position 0 is a non-text block).  The spec-modelled kind-aware
extraction selects its payload, but the code's `content[0]['text']` lookup
raises `KeyError` instead of returning that payload. -/
theorem later_text_segment_not_selected :
    seek_cosmic_wisdom
        (fun _ _ _ =>
          { role := "assistant"
            content := [Segment.nonText "reasoningContent",
                        Segment.text "The wind honors only the prepared."] })
        (startupModel []) { question := "q" }
      = .error Fault.keyError
    ∧ spec_extractWisdom [Segment.nonText "reasoningContent",
        Segment.text "The wind honors only the prepared."]
      = .ok "The wind honors only the prepared." := by
  exact ⟨rfl, rfl⟩

/-- C5 (amended): extraction is an unchecked index/key lookup at position 0,
not a kind-aware selection: when the reply's content is non-empty, the result
is fully determined by segment 0 alone — its payload becomes `wisdom` when it
is text-bearing, and otherwise the handler raises an unhandled `KeyError`,
even when a later segment bears text. -/
theorem wisdom_from_position_zero_only (g : Generate) (m : GeminiModel)
    (q : String) (seg : Segment) (rest : List Segment)
    (h : (g m orbSystemPrompt [userMsg q]).content = seg :: rest) :
    seek_cosmic_wisdom g m { question := q }
      = match seg with
        | .text t => .ok { question := q, wisdom := t }
        | .nonText _ => .error Fault.keyError := by
  unfold seek_cosmic_wisdom
  rw [seek_cosmic_wisdomS_fst]
  cases seg with
  | text t => simp [liftGen, h, extractWisdom, Segment.textPayload]
  | nonText k => simp [liftGen, h, extractWisdom, Segment.textPayload]

/-- C5 witness for the amended theorem: a reply whose segment 0 is a non-text
block, on which the handler faults with `KeyError`. -/
theorem wisdom_from_position_zero_only_witness :
    seek_cosmic_wisdom
        (fun _ _ _ =>
          { role := "assistant"
            content := [Segment.nonText "toolUse", Segment.text "w"] })
        (startupModel []) { question := "q" }
      = .error Fault.keyError :=
  wisdom_from_position_zero_only _ _ _ (Segment.nonText "toolUse")
    [Segment.text "w"] rfl

/-- C6 counterexample: with an empty environment (the API key variable absent),
module initialization succeeds — no `ConfigurationError` is raised, the service
starts, and the model configuration silently stores `None` as the credential. -/
theorem startup_succeeds_without_api_key :
    moduleInit [] = .ok
      { client_args := { api_key := none }
        model_id := "gemini-3-flash-preview"
        params :=
          { temperature := 7 / 10
            max_output_tokens := 2048
            top_p := 9 / 10
            top_k := 40 } } := by
  rfl

/-- C6 (amended): when the `GEMINI_API_KEY` environment variable is absent,
startup still succeeds: `os.getenv` yields `None`, which is stored verbatim in
the model configuration's `api_key`; the code performs no startup credential
check, so the missing credential can only manifest later, during per-request
model calls. -/
theorem missing_key_stored_as_none (env : Env)
    (h : getenv env "GEMINI_API_KEY" = none) :
    moduleInit env = .ok (startupModel env)
    ∧ (startupModel env).client_args.api_key = none := by
  exact ⟨rfl, by simp [startupModel, h]⟩

/-- C6 witness for the amended theorem at the empty environment. -/
theorem missing_key_stored_as_none_witness :
    moduleInit [] = .ok (startupModel [])
    ∧ (startupModel []).client_args.api_key = none :=
  missing_key_stored_as_none [] rfl

/-- C7 counterexample: for a capability whose reply's first segment is the
empty text `""`, the handler returns an `Insight` whose `wisdom` is empty —
the code enforces no non-emptiness on `wisdom`. -/
theorem empty_wisdom_insight_returned :
    seek_cosmic_wisdom
        (fun _ _ _ => { role := "assistant", content := [Segment.text ""] })
        (startupModel []) { question := "q" }
      = .ok { question := "q", wisdom := "" }
    ∧ ("" : String).length = 0 := by
  exact ⟨rfl, rfl⟩

/-- C7 (amended): every `Insight` the handler returns carries the request's own
question and, as `wisdom`, verbatim the text payload of the reply's first
content segment; `wisdom` is therefore non-empty exactly when that payload is —
non-emptiness itself is not enforced by the code. -/
theorem wisdom_verbatim_from_reply (g : Generate) (m : GeminiModel)
    (r : Inquery) (i : Insight)
    (h : seek_cosmic_wisdom g m r = .ok i) :
    i.question = r.question
    ∧ (g m orbSystemPrompt [userMsg r.question]).content.head?
        = some (Segment.text i.wisdom) := by
  unfold seek_cosmic_wisdom at h
  rw [seek_cosmic_wisdomS_fst] at h
  cases hc : (g m orbSystemPrompt [userMsg r.question]).content with
  | nil =>
    rw [show (liftGen g () m orbSystemPrompt [userMsg r.question]).1
          = g m orbSystemPrompt [userMsg r.question] from rfl, hc] at h
    simp [extractWisdom] at h
  | cons a l =>
    rw [show (liftGen g () m orbSystemPrompt [userMsg r.question]).1
          = g m orbSystemPrompt [userMsg r.question] from rfl, hc] at h
    cases a with
    | text t =>
      simp [extractWisdom, Segment.textPayload] at h
      simp [← h]
    | nonText k => simp [extractWisdom, Segment.textPayload] at h

/-- C7 witness for the amended theorem at a concrete stub and question. -/
theorem wisdom_verbatim_from_reply_witness :
    ("q" : String) = "q"
    ∧ ([Segment.text "w"] : List Segment).head? = some (Segment.text "w") :=
  wisdom_verbatim_from_reply
    (fun _ _ _ => { role := "assistant", content := [Segment.text "w"] })
    (startupModel []) { question := "q" } { question := "q", wisdom := "w" } rfl

/-- C8: every accepted non-blank question string is preserved exactly: the
validator stores the inbound string character for character as
`Inquery.question`, and any `Insight` the pipeline returns carries that same
string unchanged as its `question` field. -/
theorem question_preserved_exactly (p : Payload) (s : String) (g : Generate)
    (m : GeminiModel)
    (_hs : s.any (fun c => !c.isWhitespace) = true)
    (hq : p.lookup "question" = some (JValue.str s)) :
    Inquery.validate p = .ok { question := s }
    ∧ ∀ i, post_root g m p = .ok i → i.question = s := by
  have hv : Inquery.validate p = .ok { question := s } := by
    unfold Inquery.validate
    rw [hq]
  refine ⟨hv, ?_⟩
  intro i hi
  unfold post_root post_rootS at hi
  rw [hv] at hi
  dsimp only at hi
  rcases hsk : seek_cosmic_wisdomS (liftGen g) () m { question := s }
    with ⟨res, s2⟩
  rw [hsk] at hi
  cases res with
  | error f => simp at hi
  | ok j =>
    simp at hi
    have hj := seek_cosmic_wisdomS_fst (liftGen g) () m { question := s }
    rw [hsk] at hj
    simp at hj
    cases hx : extractWisdom
        ((liftGen g) () m orbSystemPrompt [userMsg s]).1.content with
    | ok w =>
      rw [hx] at hj
      simp at hj
      rw [← hi, hj]
    | error f =>
      rw [hx] at hj
      simp at hj

/-- C8 witness at the claim's example question and a concrete stub. -/
theorem question_preserved_exactly_witness :
    Inquery.validate [("question", JValue.str "Will I be too cold without a jacket?")]
      = .ok { question := "Will I be too cold without a jacket?" }
    ∧ ∀ i, post_root
        (fun _ _ _ => { role := "assistant", content := [Segment.text "w"] })
        (startupModel [])
        [("question", JValue.str "Will I be too cold without a jacket?")] = .ok i →
        i.question = "Will I be too cold without a jacket?" :=
  question_preserved_exactly _ _ _ _ (by simp [String.any_eq]) (by rfl)

/-- C9: for every payload that passes validation, the pipeline makes exactly
one outbound call to the model capability — starting a call-counting stub at
zero, it ends at one. -/
theorem one_model_call_per_valid_request (g : Generate) (m : GeminiModel)
    (p : Payload) (r : Inquery) (h : Inquery.validate p = .ok r) :
    (post_rootS (countingGen g) 0 m p).2 = 1 := by
  rw [post_rootS_snd_ok (countingGen g) 0 m p r h, seek_cosmic_wisdomS_snd]
  rfl

/-- C9 witness at a concrete valid payload and stub. -/
theorem one_model_call_per_valid_request_witness :
    (post_rootS
        (countingGen (fun _ _ _ => { role := "assistant", content := [Segment.text "w"] }))
        0 (startupModel []) [("question", JValue.str "q")]).2 = 1 :=
  one_model_call_per_valid_request _ _ _ { question := "q" } (by rfl)

/-- C10: an additional field with any unrecognized name is ignored: prepending
it to the body changes neither the validation result (so an `Inquery` with the
same question is produced) nor the endpoint's final result. -/
theorem extra_fields_ignored (k : String) (v : JValue) (p : Payload)
    (g : Generate) (m : GeminiModel) (h : k ≠ "question") :
    Inquery.validate ((k, v) :: p) = Inquery.validate p
    ∧ post_root g m ((k, v) :: p) = post_root g m p := by
  have hk : ("question" == k) = false := beq_eq_false_iff_ne.mpr (Ne.symm h)
  have hl : List.lookup "question" ((k, v) :: p) = List.lookup "question" p := by
    simp only [List.lookup]
    rw [hk]
  have hv : Inquery.validate ((k, v) :: p) = Inquery.validate p := by
    unfold Inquery.validate
    rw [hl]
  refine ⟨hv, ?_⟩
  unfold post_root post_rootS
  rw [hv]

/-- C10 witness at a body carrying an extra field alongside the question. -/
theorem extra_fields_ignored_witness :
    Inquery.validate [("extra", JValue.str "x"), ("question", JValue.str "q")]
      = Inquery.validate [("question", JValue.str "q")]
    ∧ post_root
        (fun _ _ _ => { role := "assistant", content := [Segment.text "w"] })
        (startupModel [])
        [("extra", JValue.str "x"), ("question", JValue.str "q")]
      = post_root
        (fun _ _ _ => { role := "assistant", content := [Segment.text "w"] })
        (startupModel [])
        [("question", JValue.str "q")] :=
  extra_fields_ignored "extra" (JValue.str "x")
    [("question", JValue.str "q")] _ _ (by decide)
